import Mathlib

/-!
Verification of the node-gdal binding layer (src/src/gdal.hpp).

The binding layer marshals JavaScript values into calls on the GDAL
library.  The numeric kernels (GDALApplyGeoTransform, GDALInvGeoTransform,
GDALDecToDMS), the argument-marshaling macros of gdal_common.hpp
(NODE_ARG_STR, NODE_ARG_DOUBLE, NODE_ARG_ARRAY, NODE_ARG_INT_OPT) and the
CPL config-option store are not part of the sources under src/; they are
modelled from the specification and marked as such in their doc comments.
Everything else (argument validation, axis normalization, output-array
writes, config-option branching) is translated directly from
src/src/gdal.hpp.

JavaScript doubles are modelled exactly: a value is either a finite
rational or one of the special values NaN, +Infinity, -Infinity, with
IEEE-style propagation through the arithmetic (finite arithmetic is exact
rather than rounded, matching the exact-arithmetic reading of the spec;
there is no signed zero).
-/

/-- A JavaScript/C double in the exact-arithmetic embedding: a finite
rational or one of the IEEE special values. -/
inductive RD where
  | fin (q : ℚ)
  | nan
  | inf
  | ninf
deriving DecidableEq

/-- IEEE-style addition: NaN propagates, opposite infinities give NaN,
finite addition is exact. -/
def RD.add : RD → RD → RD
  | .nan, _ => .nan
  | _, .nan => .nan
  | .inf, .ninf => .nan
  | .ninf, .inf => .nan
  | .inf, _ => .inf
  | _, .inf => .inf
  | .ninf, _ => .ninf
  | _, .ninf => .ninf
  | .fin a, .fin b => .fin (a + b)

/-- IEEE-style negation. -/
def RD.neg : RD → RD
  | .fin a => .fin (-a)
  | .nan => .nan
  | .inf => .ninf
  | .ninf => .inf

/-- IEEE-style subtraction. -/
def RD.sub (a b : RD) : RD := RD.add a (RD.neg b)

/-- IEEE-style multiplication: NaN propagates, infinity times zero is NaN,
signs follow the usual rule, finite multiplication is exact. -/
def RD.mul : RD → RD → RD
  | .nan, _ => .nan
  | _, .nan => .nan
  | .fin a, .fin b => .fin (a * b)
  | .inf, .inf => .inf
  | .inf, .ninf => .ninf
  | .ninf, .inf => .ninf
  | .ninf, .ninf => .inf
  | .inf, .fin b => if 0 < b then .inf else if b < 0 then .ninf else .nan
  | .fin a, .inf => if 0 < a then .inf else if a < 0 then .ninf else .nan
  | .ninf, .fin b => if 0 < b then .ninf else if b < 0 then .inf else .nan
  | .fin a, .ninf => if 0 < a then .ninf else if a < 0 then .inf else .nan

/-- IEEE-style division (without signed zero: a nonzero finite value
divided by zero gives the infinity of its own sign, zero over zero gives
NaN). -/
def RD.div : RD → RD → RD
  | .nan, _ => .nan
  | _, .nan => .nan
  | .fin a, .fin b =>
      if b = 0 then (if a = 0 then .nan else if 0 < a then .inf else .ninf)
      else .fin (a / b)
  | .fin _, .inf => .fin 0
  | .fin _, .ninf => .fin 0
  | .inf, .fin b => if b < 0 then .ninf else .inf
  | .ninf, .fin b => if b < 0 then .inf else .ninf
  | .inf, _ => .nan
  | .ninf, _ => .nan

/-- The six geotransform coefficients, in the array order used by the
source: geoX = c0 + pixel * c1 + line * c2, geoY = c3 + pixel * c4 + line * c5. -/
structure GeoTransform (α : Type) where
  c0 : α
  c1 : α
  c2 : α
  c3 : α
  c4 : α
  c5 : α
deriving DecidableEq

/-- Embed an exact rational geotransform into the double model. -/
def finGT (g : GeoTransform ℚ) : GeoTransform RD :=
  ⟨.fin g.c0, .fin g.c1, .fin g.c2, .fin g.c3, .fin g.c4, .fin g.c5⟩

/-- Determinant of the 2x2 submatrix [[c1, c2], [c4, c5]]. -/
def detRD (g : GeoTransform RD) : RD :=
  RD.sub (RD.mul g.c1 g.c5) (RD.mul g.c2 g.c4)

/-- Modelled from the spec: GDALApplyGeoTransform belongs to the external
GDAL library and is not under src/; per spec section 4.1,
geoX = c0 + pixelCol * c1 + pixelRow * c2 and
geoY = c3 + pixelCol * c4 + pixelRow * c5, with non-finite inputs
propagated rather than trapped. -/
def GDALApplyGeoTransformRD (g : GeoTransform RD) (x y : RD) : RD × RD :=
  (RD.add (RD.add g.c0 (RD.mul x g.c1)) (RD.mul y g.c2),
   RD.add (RD.add g.c3 (RD.mul x g.c4)) (RD.mul y g.c5))

/-- Modelled from the spec: GDALInvGeoTransform belongs to the external
GDAL library and is not under src/; per spec section 4.2 the determinant
det = c1*c5 - c2*c4 is tested for exact zero (failure, output buffer left
unwritten), otherwise invDet = 1/det and the inverse coefficients are
produced.  Failure is reported as none, success as some of the inverse. -/
def GDALInvGeoTransformRD (g : GeoTransform RD) : Option (GeoTransform RD) :=
  let det := detRD g
  if det = RD.fin 0 then none
  else
    let invDet := RD.div (RD.fin 1) det
    let c1i := RD.mul g.c5 invDet
    let c2i := RD.neg (RD.mul g.c2 invDet)
    let c4i := RD.neg (RD.mul g.c4 invDet)
    let c5i := RD.mul g.c1 invDet
    let c0i := RD.sub (RD.neg (RD.mul g.c0 c1i)) (RD.mul g.c3 c2i)
    let c3i := RD.sub (RD.neg (RD.mul g.c0 c4i)) (RD.mul g.c3 c5i)
    some ⟨c0i, c1i, c2i, c3i, c4i, c5i⟩

/-- Truncation toward zero, as performed by the V8 integer conversion used
for integer arguments. -/
def ratTrunc (q : ℚ) : ℤ := if q < 0 then -⌊-q⌋ else ⌊q⌋

/-- Integer part of the absolute angle (whole degrees). -/
def dmsDeg (a : ℚ) : ℕ := (⌊a⌋).toNat

/-- Fractional degrees expressed in minutes. -/
def dmsMinFull (a : ℚ) : ℚ := (a - ⌊a⌋) * 60

/-- Whole minutes. -/
def dmsMin (a : ℚ) : ℕ := (⌊dmsMinFull a⌋).toNat

/-- Remaining seconds, before rounding. -/
def dmsSec (a : ℚ) : ℚ := (dmsMinFull a - ⌊dmsMinFull a⌋) * 60

/-- Seconds scaled by 10^precision and rounded to the nearest integer. -/
def dmsK (a : ℚ) (p : ℕ) : ℕ := (round (dmsSec a * 10 ^ p)).toNat

/-- Modelled from the spec: the degrees/minutes/seconds decomposition of
spec section 4.3 (the formatting core of GDALDecToDMS, which belongs to
the external GDAL library and is not under src/).  Seconds are rounded to
the requested precision; a rounded seconds value of 60.0 carries into
minutes, and a minutes value of 60 carries into degrees.  The seconds
component is returned in units of 10^-precision seconds. -/
def dmsParts (a : ℚ) (p : ℕ) : ℕ × ℕ × ℕ :=
  if dmsK a p = 60 * 10 ^ p then
    if dmsMin a + 1 = 60 then (dmsDeg a + 1, 0, 0)
    else (dmsDeg a, dmsMin a + 1, 0)
  else (dmsDeg a, dmsMin a, dmsK a p)

/-- Left-pad a natural number with zeros to a given digit count. -/
def zeroPad (p k : ℕ) : String :=
  String.mk (List.replicate (p - (toString k).length) (Char.ofNat 48)) ++ toString k

/-- Render k / 10^p with exactly p fractional digits (no decimal point
when p = 0). -/
def formatFixed (k p : ℕ) : String :=
  if p = 0 then toString k
  else toString (k / 10 ^ p) ++ "." ++ zeroPad p (k % 10 ^ p)

/-- Modelled from the spec: GDALDecToDMS belongs to the external GDAL
library and is not under src/; per spec section 4.3 the result is rendered
as the degrees, the letter d, the minutes, a minute mark (code 39), the
seconds with the requested precision, a second mark (code 34), and the
hemisphere letter: N/S for latitude and E/W for longitude, chosen by the
sign of the angle. -/
def GDALDecToDMS (angle : ℚ) (axis : String) (p : ℕ) : String :=
  toString (dmsParts |angle| p).1 ++ "d" ++ toString (dmsParts |angle| p).2.1 ++ "\x27" ++
  formatFixed (dmsParts |angle| p).2.2 p ++ "\x22" ++
  (if axis = "Lat" then (if angle < 0 then "S" else "N")
   else (if angle < 0 then "W" else "E"))

/-- Modelled from the spec: the angle/precision guards of the DMS
conversion.  Spec section 4.3 requires a non-finite angle and a negative
precision to fail with InvalidArgument rather than be formatted. -/
def GDALDecToDMSchecked (angle : RD) (axis : String) (precision : ℤ) : Except String String :=
  match angle with
  | .fin q =>
      if precision < 0 then .error "InvalidArgument: negative precision"
      else .ok (GDALDecToDMS q axis precision.toNat)
  | _ => .error "InvalidArgument: non-finite angle"

/-- A JavaScript value as seen by the binding layer: a double, a string,
null, undefined, an array, or a plain object (modelled by its x and y
properties, the only ones the binding reads). -/
inductive JSValue where
  | dbl (d : RD)
  | str (s : String)
  | null
  | undef
  | arr (elems : List JSValue)
  | obj (x y : Option JSValue)

/-- The V8 IsNumber test: true exactly for doubles, including the
non-finite ones. -/
def jsIsNumber : JSValue → Bool
  | .dbl _ => true
  | _ => false

/-- The V8 IsObject test: true for plain objects and arrays. -/
def jsIsObject : JSValue → Bool
  | .arr _ => true
  | .obj _ _ => true
  | _ => false

/-- The NumberValue conversion, applied only to values that passed the
IsNumber test. -/
def jsToRD : JSValue → RD
  | .dbl d => d
  | _ => .nan

/-- Modelled from the spec: the macro NODE_ARG_DOUBLE of gdal_common.hpp
is not under src/; a required numeric argument must be present and be a
number (any double, finite or not). -/
def nodeArgDouble (args : List JSValue) (i : ℕ) (nm : String) : Except String RD :=
  match args.get? i with
  | none => .error (nm ++ " must be given")
  | some (.dbl d) => .ok d
  | some _ => .error (nm ++ " must be a number")

/-- Modelled from the spec: the macro NODE_ARG_STR of gdal_common.hpp is
not under src/; a required string argument must be present and be a
string. -/
def nodeArgStr (args : List JSValue) (i : ℕ) (nm : String) : Except String String :=
  match args.get? i with
  | none => .error (nm ++ " must be given")
  | some (.str s) => .ok s
  | some _ => .error (nm ++ " must be a string")

/-- Modelled from the spec: the macro NODE_ARG_ARRAY of gdal_common.hpp is
not under src/; a required array argument must be present and be an
array. -/
def nodeArgArray (args : List JSValue) (i : ℕ) (nm : String) : Except String (List JSValue) :=
  match args.get? i with
  | none => .error (nm ++ " must be given")
  | some (.arr xs) => .ok xs
  | some _ => .error (nm ++ " must be an array")

/-- Modelled from the spec: the macro NODE_ARG_INT_OPT of gdal_common.hpp
is not under src/; an optional integer argument keeps its default when
absent, null or undefined, converts numbers by truncation toward zero
(non-finite doubles convert to 0), and rejects anything else. -/
def nodeArgIntOpt (args : List JSValue) (i : ℕ) (nm : String) (dflt : ℤ) : Except String ℤ :=
  match args.get? i with
  | none => .ok dflt
  | some (.dbl (.fin q)) => .ok (ratTrunc q)
  | some (.dbl _) => .ok 0
  | some .null => .ok dflt
  | some .undef => .ok dflt
  | some _ => .error (nm ++ " must be an integer")

/-- The geotransform-reading loop shared by invGeoTransform and
applyGeoTransform: the array length must be exactly 6, every element must
pass IsNumber, and the six NumberValue results are collected.  The loop
over the elements is translated as a whole-array check with the same
acceptance set and the same error message. -/
def readGT (l : List JSValue) : Except String (GeoTransform RD) :=
  if l.length ≠ 6 then .error "Input geotransform array length must equal 6"
  else if ∀ v ∈ l, jsIsNumber v = true then
    .ok ⟨jsToRD (l.getD 0 .undef), jsToRD (l.getD 1 .undef), jsToRD (l.getD 2 .undef),
         jsToRD (l.getD 3 .undef), jsToRD (l.getD 4 .undef), jsToRD (l.getD 5 .undef)⟩
  else .error "geotransform array must only contain numbers"

/-- The V8 array Set operation: writing index i replaces the element when
i is within the array and extends the array (padding with undefined) when
it is not. -/
def jsArraySet : List JSValue → ℕ → JSValue → List JSValue
  | [], 0, v => [v]
  | [], n + 1, v => .undef :: jsArraySet [] n v
  | _ :: xs, 0, v => v :: xs
  | x :: xs, n + 1, v => x :: jsArraySet xs n v

/-- The six Set calls of invGeoTransform, copying the local output buffer
into the caller-supplied output array at indices 0 through 5. -/
def writeGT (gtOut : List JSValue) (g : GeoTransform RD) : List JSValue :=
  jsArraySet (jsArraySet (jsArraySet (jsArraySet (jsArraySet (jsArraySet
    gtOut 0 (.dbl g.c0)) 1 (.dbl g.c1)) 2 (.dbl g.c2)) 3 (.dbl g.c3)) 4 (.dbl g.c4)) 5 (.dbl g.c5)

/-- The six-element all-double array corresponding to a geotransform. -/
def gtJS (g : GeoTransform RD) : List JSValue :=
  [.dbl g.c0, .dbl g.c1, .dbl g.c2, .dbl g.c3, .dbl g.c4, .dbl g.c5]

/-- The invGeoTransform binding.  The local output buffer dfgtOut is
uninitialized stack memory whose indeterminate initial contents are
passed explicitly as the scratch parameter; the GDAL call leaves it
unwritten on failure, and the binding copies it into the caller-supplied
output array and returns the integer status in either case. -/
def invGeoTransformJS (scratch : GeoTransform RD) (args : List JSValue) :
    Except String (ℤ × List JSValue) :=
  match nodeArgArray args 0 "gtIn" with
  | .error e => .error e
  | .ok gtIn =>
  match nodeArgArray args 1 "gtOut" with
  | .error e => .error e
  | .ok gtOut =>
  match readGT gtIn with
  | .error e => .error e
  | .ok g =>
  match GDALInvGeoTransformRD g with
  | none => .ok (0, writeGT gtOut scratch)
  | some o => .ok (1, writeGT gtOut o)

/-- The point-argument parsing of applyGeoTransform: with exactly two
arguments whose second is an object, the x and y properties are read and
must be numbers; otherwise the second and third arguments are read as
required doubles. -/
def readPoint (args : List JSValue) : Except String (RD × RD) :=
  if args.length = 2 ∧ jsIsObject (args.getD 1 .undef) = true then
    match args.getD 1 .undef with
    | .obj ox oy =>
      match ox.getD .undef, oy.getD .undef with
      | .dbl xv, .dbl yv => .ok (xv, yv)
      | _, _ => .error "point must contain numerical properties x and y"
    | _ => .error "point must contain numerical properties x and y"
  else
    match nodeArgDouble args 1 "x" with
    | .error e => .error e
    | .ok xv =>
    match nodeArgDouble args 2 "y" with
    | .error e => .error e
    | .ok yv => .ok (xv, yv)

/-- The applyGeoTransform binding: validate the geotransform array, parse
the point, apply the transform, and return an object with x and y
properties. -/
def applyGeoTransformJS (args : List JSValue) : Except String JSValue :=
  match nodeArgArray args 0 "gtIn" with
  | .error e => .error e
  | .ok gtIn =>
  match readGT gtIn with
  | .error e => .error e
  | .ok g =>
  match readPoint args with
  | .error e => .error e
  | .ok p =>
  let r := GDALApplyGeoTransformRD g p.1 p.2
  .ok (.obj (some (.dbl r.1)) (some (.dbl r.2)))

/-- The axis normalization of decToDMS: when the axis string is nonempty
its first character is uppercased in place; the rest is untouched. -/
def normalizeAxis (axis : String) : String :=
  match axis.data with
  | [] => axis
  | c :: cs => String.mk (c.toUpper :: cs)

/-- The decToDMS binding: read the angle (a required double), the axis (a
required string) and the optional precision (default 2), normalize the
axis, reject anything that does not normalize to Lat or Long, and
otherwise format. -/
def decToDMSJS (args : List JSValue) : Except String String :=
  match nodeArgDouble args 0 "angle" with
  | .error e => .error e
  | .ok angle =>
  match nodeArgStr args 1 "axis" with
  | .error e => .error e
  | .ok axis0 =>
  match nodeArgIntOpt args 2 "precision" 2 with
  | .error e => .error e
  | .ok precision =>
  let axis := normalizeAxis axis0
  if axis ≠ "Lat" ∧ axis ≠ "Long" then
    .error "Axis must be \x27lat\x27 or \x27long\x27"
  else GDALDecToDMSchecked angle axis precision

/-- The process-wide CPL config-option state, as a map from names to
optionally set values. -/
def ConfigStore := String → Option String

/-- Modelled from the spec: CPLSetConfigOption belongs to the external
library and is not under src/; per spec section 6 it is a store over
process-wide state where a string value sets the option and null clears
it. -/
def CPLSetConfigOption (σ : ConfigStore) (nm : String) (v : Option String) : ConfigStore :=
  fun n => if n = nm then v else σ n

/-- Modelled from the spec: CPLGetConfigOption belongs to the external
library and is not under src/; per spec section 6 it returns the stored
value or null when unset. -/
def CPLGetConfigOption (σ : ConfigStore) (nm : String) : Option String := σ nm

/-- The setConfigOption binding: the name is a required string; a second
argument must be present; a string value is stored, null or undefined
clears the option, and any other value is an error. -/
def setConfigOptionJS (σ : ConfigStore) (args : List JSValue) : Except String ConfigStore :=
  match nodeArgStr args 0 "name" with
  | .error e => .error e
  | .ok nm =>
  if args.length < 2 then .error "string or null value must be provided"
  else match args.getD 1 .undef with
  | .str v => .ok (CPLSetConfigOption σ nm (some v))
  | .null => .ok (CPLSetConfigOption σ nm none)
  | .undef => .ok (CPLSetConfigOption σ nm none)
  | _ => .error "value must be a string or null"

/-- The getConfigOption binding: the name is a required string; the
result is the stored string, or null when the option is unset (SafeString
turns a null C string into the JavaScript null). -/
def getConfigOptionJS (σ : ConfigStore) (args : List JSValue) : Except String JSValue :=
  match nodeArgStr args 0 "name" with
  | .error e => .error e
  | .ok nm =>
  .ok (match CPLGetConfigOption σ nm with
       | some s => .str s
       | none => .null)

/-- Test whether a call produced a result rather than a thrown error. -/
def isOkE {ε α : Type} : Except ε α → Bool
  | .ok _ => true
  | .error _ => false

@[simp] theorem RD.add_fin (a b : ℚ) : RD.add (.fin a) (.fin b) = .fin (a + b) := rfl

@[simp] theorem RD.neg_fin (a : ℚ) : RD.neg (.fin a) = .fin (-a) := rfl

@[simp] theorem RD.sub_fin (a b : ℚ) : RD.sub (.fin a) (.fin b) = .fin (a - b) := by
  simp [RD.sub, RD.add, RD.neg, sub_eq_add_neg]

@[simp] theorem RD.mul_fin (a b : ℚ) : RD.mul (.fin a) (.fin b) = .fin (a * b) := rfl

theorem RD.div_fin_of_ne (a b : ℚ) (h : b ≠ 0) :
    RD.div (.fin a) (.fin b) = .fin (a / b) := by
  simp [RD.div, h]

theorem readGT_isOk_iff (l : List JSValue) :
    (∃ g, readGT l = .ok g) ↔ l.length = 6 ∧ ∀ v ∈ l, jsIsNumber v = true := by
  unfold readGT
  by_cases h6 : l.length = 6
  · by_cases hn : ∀ v ∈ l, jsIsNumber v = true
    · rw [if_neg (by simp [h6]), if_pos hn]
      exact ⟨fun _ => ⟨h6, hn⟩, fun _ => ⟨_, rfl⟩⟩
    · rw [if_neg (by simp [h6]), if_neg hn]
      simp [hn]
  · rw [if_pos h6]
    simp [h6]

theorem writeGT_eq (l : List JSValue) (g : GeoTransform RD) :
    writeGT l g = [.dbl g.c0, .dbl g.c1, .dbl g.c2, .dbl g.c3, .dbl g.c4, .dbl g.c5]
      ++ l.drop 6 := by
  match l with
  | [] => rfl
  | [a] => rfl
  | [a, b] => rfl
  | [a, b, c] => rfl
  | [a, b, c, d] => rfl
  | [a, b, c, d, e] => rfl
  | a :: b :: c :: d :: e :: f :: rest => rfl

theorem invRD_none_iff (g : GeoTransform RD) :
    GDALInvGeoTransformRD g = none ↔ detRD g = RD.fin 0 := by
  by_cases hd : detRD g = RD.fin 0
  · simp [GDALInvGeoTransformRD, hd]
  · simp [GDALInvGeoTransformRD, hd]

theorem invJS_eval (g scr : GeoTransform RD) (gtOut : List JSValue) :
    invGeoTransformJS scr [.arr (gtJS g), .arr gtOut] =
      .ok ((if detRD g = RD.fin 0 then 0 else 1),
           writeGT gtOut ((GDALInvGeoTransformRD g).getD scr)) := by
  have h1 : invGeoTransformJS scr [.arr (gtJS g), .arr gtOut] =
      (match GDALInvGeoTransformRD g with
       | none => Except.ok (0, writeGT gtOut scr)
       | some o => Except.ok (1, writeGT gtOut o)) := rfl
  rw [h1]
  cases hinv : GDALInvGeoTransformRD g with
  | none =>
    have hd : detRD g = RD.fin 0 := (invRD_none_iff g).mp hinv
    rw [if_pos hd]
    rfl
  | some o =>
    have hd : ¬ detRD g = RD.fin 0 := by
      intro hc
      rw [(invRD_none_iff g).mpr hc] at hinv
      exact Option.noConfusion hinv
    rw [if_neg hd]
    rfl

theorem applyJS_eval (g : GeoTransform RD) (x y : RD) :
    applyGeoTransformJS [.arr (gtJS g), .dbl x, .dbl y] =
      .ok (.obj (some (.dbl (GDALApplyGeoTransformRD g x y).1))
                (some (.dbl (GDALApplyGeoTransformRD g x y).2))) := rfl

theorem inv_fin (g : GeoTransform ℚ) (h : g.c1 * g.c5 - g.c2 * g.c4 ≠ 0) :
    GDALInvGeoTransformRD (finGT g) =
      some (finGT
        ⟨-(g.c0 * (g.c5 * (1 / (g.c1 * g.c5 - g.c2 * g.c4)))) -
            g.c3 * -(g.c2 * (1 / (g.c1 * g.c5 - g.c2 * g.c4))),
          g.c5 * (1 / (g.c1 * g.c5 - g.c2 * g.c4)),
          -(g.c2 * (1 / (g.c1 * g.c5 - g.c2 * g.c4))),
          -(g.c0 * -(g.c4 * (1 / (g.c1 * g.c5 - g.c2 * g.c4)))) -
            g.c3 * (g.c1 * (1 / (g.c1 * g.c5 - g.c2 * g.c4))),
          -(g.c4 * (1 / (g.c1 * g.c5 - g.c2 * g.c4))),
          g.c1 * (1 / (g.c1 * g.c5 - g.c2 * g.c4))⟩) := by
  obtain ⟨c0, c1, c2, c3, c4, c5⟩ := g
  simp only at h
  simp [GDALInvGeoTransformRD, detRD, finGT, RD.div_fin_of_ne _ _ h, h,
    one_div, mul_comm]

theorem normalizeAxis_lat : normalizeAxis "lat" = "Lat" := rfl

theorem normalizeAxis_long : normalizeAxis "long" = "Long" := rfl

theorem ratTrunc_natCast (p : ℕ) : ratTrunc (p : ℚ) = p := by
  unfold ratTrunc
  rw [if_neg (not_lt.mpr (by positivity))]
  exact Int.floor_natCast p

theorem decToDMSJS_eval (q : ℚ) (axis : String) (p : ℕ) :
    decToDMSJS [.dbl (.fin q), .str axis, .dbl (.fin (p : ℚ))] =
      if normalizeAxis axis ≠ "Lat" ∧ normalizeAxis axis ≠ "Long" then
        .error "Axis must be \x27lat\x27 or \x27long\x27"
      else .ok (GDALDecToDMS q (normalizeAxis axis) p) := by
  show (if normalizeAxis axis ≠ "Lat" ∧ normalizeAxis axis ≠ "Long" then
          Except.error "Axis must be \x27lat\x27 or \x27long\x27"
        else GDALDecToDMSchecked (.fin q) (normalizeAxis axis) (ratTrunc (p : ℚ))) = _
  rw [ratTrunc_natCast]
  split
  · rfl
  · rw [show GDALDecToDMSchecked (.fin q) (normalizeAxis axis) (p : ℤ) =
        (if (p : ℤ) < 0 then .error "InvalidArgument: negative precision"
         else .ok (GDALDecToDMS q (normalizeAxis axis) ((p : ℤ)).toNat)) from rfl]
    rw [if_neg (by omega)]
    norm_num

theorem dmsMinFull_lt (a : ℚ) : dmsMinFull a < 60 := by
  have h := Int.lt_floor_add_one a
  unfold dmsMinFull
  nlinarith

theorem dmsMin_lt (a : ℚ) : dmsMin a < 60 := by
  have h1 : (⌊dmsMinFull a⌋ : ℤ) < 60 := by
    apply Int.floor_lt.mpr
    exact_mod_cast dmsMinFull_lt a
  unfold dmsMin
  omega

theorem dmsSec_lt (a : ℚ) : dmsSec a < 60 := by
  have h := Int.lt_floor_add_one (dmsMinFull a)
  unfold dmsSec
  nlinarith

theorem dmsK_le (a : ℚ) (p : ℕ) : dmsK a p ≤ 60 * 10 ^ p := by
  have hs := dmsSec_lt a
  have hpow : (0 : ℚ) < 10 ^ p := by positivity
  have h1 : dmsSec a * 10 ^ p < 60 * 10 ^ p := mul_lt_mul_of_pos_right hs hpow
  have h2 : (round (dmsSec a * 10 ^ p) : ℤ) < 60 * (10 : ℤ) ^ p + 1 := by
    rw [round_eq]
    apply Int.floor_lt.mpr
    push_cast
    linarith
  have hc : ((10 ^ p : ℕ) : ℤ) = (10 : ℤ) ^ p := by push_cast; ring
  unfold dmsK
  omega

theorem dmsParts_min_lt (a : ℚ) (p : ℕ) : (dmsParts a p).2.1 < 60 := by
  have hm := dmsMin_lt a
  unfold dmsParts
  split
  · split
    · show (0 : ℕ) < 60
      norm_num
    · rename_i hne
      show dmsMin a + 1 < 60
      omega
  · show dmsMin a < 60
    exact hm

theorem dmsParts_sec_lt (a : ℚ) (p : ℕ) : (dmsParts a p).2.2 < 60 * 10 ^ p := by
  have hk := dmsK_le a p
  have hpow : 0 < 10 ^ p := by positivity
  unfold dmsParts
  split
  · split
    · show (0 : ℕ) < 60 * 10 ^ p
      positivity
    · show (0 : ℕ) < 60 * 10 ^ p
      positivity
  · rename_i hne
    show dmsK a p < 60 * 10 ^ p
    omega

theorem ex1parts : dmsParts |(0 : ℚ)| 2 = (0, 0, 0) := by
  have h1 : (|(0 : ℚ)| : ℚ) = 0 := abs_zero
  have h2 : (⌊(0 : ℚ)⌋ : ℤ) = 0 := Int.floor_zero
  have hdeg : dmsDeg |(0 : ℚ)| = 0 := by unfold dmsDeg; rw [h1, h2]; rfl
  have hmf : dmsMinFull |(0 : ℚ)| = 0 := by unfold dmsMinFull; rw [h1]; norm_num
  have hmin : dmsMin |(0 : ℚ)| = 0 := by unfold dmsMin; rw [hmf]; norm_num
  have hsec : dmsSec |(0 : ℚ)| = 0 := by unfold dmsSec; rw [hmf]; norm_num
  have hk : dmsK |(0 : ℚ)| 2 = 0 := by unfold dmsK; rw [hsec]; norm_num
  unfold dmsParts
  rw [hk, hdeg, hmin]
  norm_num

theorem ex1 : decToDMSJS [.dbl (.fin 0), .str "lat", .dbl (.fin 2)] =
    .ok "0d0\x270.00\x22N" := by
  have h := decToDMSJS_eval 0 "lat" 2
  norm_num [normalizeAxis_lat] at h
  rw [h]
  unfold GDALDecToDMS
  rw [ex1parts]
  rw [if_pos rfl, if_neg (by norm_num)]
  rfl

theorem ex2parts : dmsParts |(-(91/2) : ℚ)| 2 = (45, 30, 0) := by
  have h1 : |(-(91/2) : ℚ)| = 91/2 := by
    rw [abs_of_nonpos (by norm_num)]
    norm_num
  have hfl : (⌊(91/2 : ℚ)⌋ : ℤ) = 45 := by norm_num
  have hdeg : dmsDeg |(-(91/2) : ℚ)| = 45 := by unfold dmsDeg; rw [h1, hfl]; rfl
  have hmf : dmsMinFull |(-(91/2) : ℚ)| = 30 := by unfold dmsMinFull; rw [h1, hfl]; norm_num
  have hmin : dmsMin |(-(91/2) : ℚ)| = 30 := by
    unfold dmsMin; rw [hmf, show (⌊(30 : ℚ)⌋ : ℤ) = 30 by norm_num]; rfl
  have hsec : dmsSec |(-(91/2) : ℚ)| = 0 := by unfold dmsSec; rw [hmf]; norm_num
  have hk : dmsK |(-(91/2) : ℚ)| 2 = 0 := by unfold dmsK; rw [hsec]; norm_num
  unfold dmsParts
  rw [hk, hdeg, hmin]
  norm_num

theorem ex2 : decToDMSJS [.dbl (.fin (-(91/2))), .str "long", .dbl (.fin 2)] =
    .ok "45d30\x270.00\x22W" := by
  have h := decToDMSJS_eval (-(91/2)) "long" 2
  norm_num [normalizeAxis_long] at h
  rw [h]
  unfold GDALDecToDMS
  rw [ex2parts]
  rw [if_neg (by decide), if_pos (by norm_num)]
  rfl

theorem ex3parts : dmsParts |(45999999/1000000 : ℚ)| 0 = (46, 0, 0) := by
  have h1 : |(45999999/1000000 : ℚ)| = 45999999/1000000 := abs_of_nonneg (by norm_num)
  have hfl : (⌊(45999999/1000000 : ℚ)⌋ : ℤ) = 45 := by norm_num
  have hdeg : dmsDeg |(45999999/1000000 : ℚ)| = 45 := by unfold dmsDeg; rw [h1, hfl]; rfl
  have hmf : dmsMinFull |(45999999/1000000 : ℚ)| = 2999997/50000 := by
    unfold dmsMinFull; rw [h1, hfl]; norm_num
  have hfl2 : (⌊(2999997/50000 : ℚ)⌋ : ℤ) = 59 := by norm_num
  have hmin : dmsMin |(45999999/1000000 : ℚ)| = 59 := by unfold dmsMin; rw [hmf, hfl2]; rfl
  have hsec : dmsSec |(45999999/1000000 : ℚ)| = 149991/2500 := by
    unfold dmsSec; rw [hmf, hfl2]; norm_num
  have hk : dmsK |(45999999/1000000 : ℚ)| 0 = 60 := by
    unfold dmsK
    rw [hsec, round_eq]
    norm_num
    rfl
  unfold dmsParts
  rw [hk, hdeg, hmin]
  norm_num

theorem ex3 : decToDMSJS [.dbl (.fin (45999999/1000000)), .str "lat", .dbl (.fin 0)] =
    .ok "46d0\x270\x22N" := by
  have h := decToDMSJS_eval (45999999/1000000) "lat" 0
  norm_num [normalizeAxis_lat] at h
  rw [h]
  unfold GDALDecToDMS
  rw [ex3parts]
  rw [if_pos rfl, if_neg (by norm_num)]
  rfl

/-- C1: for every transform whose 2x2 submatrix determinant c1*c5 - c2*c4
is non-zero and every pixel coordinate, applying the inverse produced by
the inversion to the result of the forward transform returns the original
coordinate, exactly, over the exact-arithmetic embedding. -/
theorem invGeoTransform_roundtrip (g : GeoTransform ℚ) (x y : ℚ)
    (h : g.c1 * g.c5 - g.c2 * g.c4 ≠ 0) :
    ∃ gi : GeoTransform RD,
      GDALInvGeoTransformRD (finGT g) = some gi ∧
      GDALApplyGeoTransformRD gi
        (GDALApplyGeoTransformRD (finGT g) (.fin x) (.fin y)).1
        (GDALApplyGeoTransformRD (finGT g) (.fin x) (.fin y)).2 = (.fin x, .fin y) := by
  refine ⟨_, inv_fin g h, ?_⟩
  obtain ⟨c0, c1, c2, c3, c4, c5⟩ := g
  simp only at h
  simp only [GDALApplyGeoTransformRD, finGT, RD.add_fin, RD.mul_fin, Prod.mk.injEq]
  constructor
  · congr 1
    field_simp
    ring
  · congr 1
    field_simp
    ring

/-- Witness for C1 at the identity transform and the pixel (3, 5). -/
theorem invGeoTransform_roundtrip_witness : ∃ gi : GeoTransform RD,
    GDALInvGeoTransformRD (finGT ⟨0, 1, 0, 0, 0, 1⟩) = some gi ∧
    GDALApplyGeoTransformRD gi
      (GDALApplyGeoTransformRD (finGT ⟨0, 1, 0, 0, 0, 1⟩) (.fin 3) (.fin 5)).1
      (GDALApplyGeoTransformRD (finGT ⟨0, 1, 0, 0, 0, 1⟩) (.fin 3) (.fin 5)).2 =
      (.fin 3, .fin 5) :=
  invGeoTransform_roundtrip ⟨0, 1, 0, 0, 0, 1⟩ 3 5 (by simp)

/-- C2: on every six-number input (finite or not), invGeoTransform never
throws, and the returned integer status is 0 exactly when the determinant
c1*c5 - c2*c4 is zero and 1 otherwise; a singular transform is reported
through the status, never presented as success. -/
theorem invGeoTransform_status : ∀ (g scr : GeoTransform RD) (gtOut : List JSValue),
    ∃ out : List JSValue,
      invGeoTransformJS scr [.arr (gtJS g), .arr gtOut] =
        .ok ((if detRD g = RD.fin 0 then 0 else 1), out) :=
  fun g scr gtOut => ⟨_, invJS_eval g scr gtOut⟩

/-- C3 counterexample: the axis string written in all capitals is rejected,
because only the first letter is uppercased and the rest is left as is, so
it does not normalize to the accepted token. -/
theorem decToDMS_axis_counterexample : decToDMSJS [.dbl (.fin 1), .str "LAT"] =
    .error "Axis must be \x27lat\x27 or \x27long\x27" := rfl

/-- C3 amended: decToDMS accepts exactly the axis strings whose
first-letter-uppercased form is the token Lat or Long: lat and Lat are
accepted with identical output, as are long and Long, while the
all-capitals forms, the full word latitude, and any other string fail. -/
theorem decToDMS_axis_amended :
    decToDMSJS [.dbl (.fin 1), .str "lat"] = decToDMSJS [.dbl (.fin 1), .str "Lat"] ∧
    isOkE (decToDMSJS [.dbl (.fin 1), .str "lat"]) = true ∧
    decToDMSJS [.dbl (.fin 1), .str "LAT"] = .error "Axis must be \x27lat\x27 or \x27long\x27" ∧
    decToDMSJS [.dbl (.fin 1), .str "long"] = decToDMSJS [.dbl (.fin 1), .str "Long"] ∧
    isOkE (decToDMSJS [.dbl (.fin 1), .str "long"]) = true ∧
    decToDMSJS [.dbl (.fin 1), .str "LONG"] = .error "Axis must be \x27lat\x27 or \x27long\x27" ∧
    decToDMSJS [.dbl (.fin 1), .str "latitude"] =
      .error "Axis must be \x27lat\x27 or \x27long\x27" ∧
    decToDMSJS [.dbl (.fin 1), .str "xyz"] = .error "Axis must be \x27lat\x27 or \x27long\x27" ∧
    ∀ (q : ℚ) (axis : String),
      isOkE (decToDMSJS [.dbl (.fin q), .str axis]) = true ↔
        (normalizeAxis axis = "Lat" ∨ normalizeAxis axis = "Long") := by
  refine ⟨rfl, rfl, rfl, rfl, rfl, rfl, rfl, rfl, ?_⟩
  intro q axis
  have hshow : decToDMSJS [.dbl (.fin q), .str axis] =
      (if normalizeAxis axis ≠ "Lat" ∧ normalizeAxis axis ≠ "Long" then
         Except.error "Axis must be \x27lat\x27 or \x27long\x27"
       else Except.ok (GDALDecToDMS q (normalizeAxis axis) 2)) := rfl
  rw [hshow]
  by_cases hc : normalizeAxis axis = "Lat" ∨ normalizeAxis axis = "Long"
  · rw [if_neg (fun hcon => hc.elim hcon.1 hcon.2)]
    simp [isOkE, hc]
  · rw [if_pos ⟨fun hl => hc (Or.inl hl), fun hl => hc (Or.inr hl)⟩]
    simp [isOkE, hc]

/-- C4: for every non-finite angle (NaN or either infinity) and any valid
axis string, decToDMS fails with InvalidArgument instead of returning a
formatted string. -/
theorem decToDMS_nonfinite (d : RD) (axis : String)
    (hd : ∀ q : ℚ, d ≠ .fin q)
    (ha : normalizeAxis axis = "Lat" ∨ normalizeAxis axis = "Long") :
    decToDMSJS [.dbl d, .str axis] = .error "InvalidArgument: non-finite angle" := by
  have hshow : decToDMSJS [.dbl d, .str axis] =
      (if normalizeAxis axis ≠ "Lat" ∧ normalizeAxis axis ≠ "Long" then
         Except.error "Axis must be \x27lat\x27 or \x27long\x27"
       else GDALDecToDMSchecked d (normalizeAxis axis) 2) := rfl
  rw [hshow, if_neg (fun hcon => ha.elim hcon.1 hcon.2)]
  cases d with
  | fin q => exact absurd rfl (hd q)
  | nan => rfl
  | inf => rfl
  | ninf => rfl

/-- Witness for C4 at a NaN angle with the axis lat. -/
theorem decToDMS_nonfinite_witness : decToDMSJS [.dbl .nan, .str "lat"] =
    .error "InvalidArgument: non-finite angle" :=
  decToDMS_nonfinite .nan "lat" (fun _ h => nomatch h) (Or.inl rfl)

/-- C5: for every finite six-coefficient sequence and finite point, the
applyGeoTransform binding returns the object with
x = c0 + x*c1 + y*c2 and y = c3 + x*c4 + y*c5, and the identity
coefficients (0, 1, 0, 0, 0, 1) return the input point unchanged. -/
theorem applyGeoTransform_formula : ∀ (g : GeoTransform ℚ) (x y : ℚ),
    applyGeoTransformJS [.arr (gtJS (finGT g)), .dbl (.fin x), .dbl (.fin y)] =
      .ok (.obj (some (.dbl (.fin (g.c0 + x * g.c1 + y * g.c2))))
                (some (.dbl (.fin (g.c3 + x * g.c4 + y * g.c5))))) ∧
    applyGeoTransformJS [.arr (gtJS (finGT ⟨0, 1, 0, 0, 0, 1⟩)), .dbl (.fin x), .dbl (.fin y)] =
      .ok (.obj (some (.dbl (.fin x))) (some (.dbl (.fin y)))) := by
  intro g x y
  constructor
  · exact applyJS_eval (finGT g) (.fin x) (.fin y)
  · rw [applyJS_eval]
    norm_num [GDALApplyGeoTransformRD, finGT]

/-- C6: on every non-singular finite input, the inversion produces exactly
the coefficients c1i = c5*invDet, c2i = -(c2*invDet), c4i = -(c4*invDet),
c5i = c1*invDet, c0i = -(c0*c1i) - c3*c2i, c3i = -(c0*c4i) - c3*c5i, with
invDet = 1/(c1*c5 - c2*c4). -/
theorem invGeoTransform_coefficients (g : GeoTransform ℚ)
    (h : g.c1 * g.c5 - g.c2 * g.c4 ≠ 0) :
    GDALInvGeoTransformRD (finGT g) =
      some (finGT
        (let invDet := 1 / (g.c1 * g.c5 - g.c2 * g.c4)
         let c1i := g.c5 * invDet
         let c2i := -(g.c2 * invDet)
         let c4i := -(g.c4 * invDet)
         let c5i := g.c1 * invDet
         ⟨-(g.c0 * c1i) - g.c3 * c2i, c1i, c2i,
          -(g.c0 * c4i) - g.c3 * c5i, c4i, c5i⟩)) :=
  inv_fin g h

/-- Witness for C6 at the identity transform. -/
theorem invGeoTransform_coefficients_witness :
    GDALInvGeoTransformRD (finGT ⟨0, 1, 0, 0, 0, 1⟩) =
      some (finGT
        (let invDet := 1 / ((1 : ℚ) * 1 - 0 * 0)
         let c1i := (1 : ℚ) * invDet
         let c2i := -((0 : ℚ) * invDet)
         let c4i := -((0 : ℚ) * invDet)
         let c5i := (1 : ℚ) * invDet
         ⟨-(0 * c1i) - 0 * c2i, c1i, c2i,
          -(0 * c4i) - 0 * c5i, c4i, c5i⟩)) :=
  invGeoTransform_coefficients ⟨0, 1, 0, 0, 0, 1⟩ (by simp)

/-- C7: the three reference renderings hold exactly, and for every angle,
axis and precision the formatter output is the degrees, letter d, minutes,
minute mark, fixed-precision seconds, second mark and hemisphere letter,
with the carried minutes below 60 and the carried seconds strictly below
60 in units of ten to the minus precision. -/
theorem decToDMS_format :
    decToDMSJS [.dbl (.fin 0), .str "lat", .dbl (.fin 2)] = .ok "0d0\x270.00\x22N" ∧
    decToDMSJS [.dbl (.fin (-(91/2))), .str "long", .dbl (.fin 2)] =
      .ok "45d30\x270.00\x22W" ∧
    decToDMSJS [.dbl (.fin (45999999/1000000)), .str "lat", .dbl (.fin 0)] =
      .ok "46d0\x270\x22N" ∧
    ∀ (q : ℚ) (axis : String) (p : ℕ),
      GDALDecToDMS q axis p =
        toString (dmsParts |q| p).1 ++ "d" ++ toString (dmsParts |q| p).2.1 ++ "\x27" ++
          formatFixed (dmsParts |q| p).2.2 p ++ "\x22" ++
          (if axis = "Lat" then (if q < 0 then "S" else "N")
           else (if q < 0 then "W" else "E")) ∧
      (dmsParts |q| p).2.1 < 60 ∧ (dmsParts |q| p).2.2 < 60 * 10 ^ p :=
  ⟨ex1, ex2, ex3, fun _ _ _ => ⟨rfl, dmsParts_min_lt _ _, dmsParts_sec_lt _ _⟩⟩

/-- C8 counterexample: a six-element coefficient array whose entries are
NaN passes validation (NaN is a number to the IsNumber test) and the call
succeeds, propagating NaN, instead of being rejected with
InvalidArgument. -/
theorem geotransform_validation_counterexample : applyGeoTransformJS
    [.arr [.dbl .nan, .dbl .nan, .dbl .nan, .dbl .nan, .dbl .nan, .dbl .nan],
     .dbl (.fin 0), .dbl (.fin 0)] =
    .ok (.obj (some (.dbl .nan)) (some (.dbl .nan))) := rfl

/-- C8 amended: both invGeoTransform and applyGeoTransform reject an input
coefficient array exactly when its length is not 6 or some element is not
a number; non-finite numeric elements (NaN, plus or minus infinity) pass
validation and flow into the arithmetic. -/
theorem geotransform_validation_amended :
    ∀ (gtIn gtOut : List JSValue) (scr : GeoTransform RD) (x y : RD),
    (isOkE (invGeoTransformJS scr [.arr gtIn, .arr gtOut]) = true ↔
      gtIn.length = 6 ∧ ∀ v ∈ gtIn, jsIsNumber v = true) ∧
    (isOkE (applyGeoTransformJS [.arr gtIn, .dbl x, .dbl y]) = true ↔
      gtIn.length = 6 ∧ ∀ v ∈ gtIn, jsIsNumber v = true) := by
  intro gtIn gtOut scr x y
  have hiff := readGT_isOk_iff gtIn
  constructor
  · rw [show invGeoTransformJS scr [.arr gtIn, .arr gtOut] =
        (match readGT gtIn with
         | Except.error e => Except.error e
         | Except.ok g =>
           match GDALInvGeoTransformRD g with
           | none => Except.ok (0, writeGT gtOut scr)
           | some o => Except.ok (1, writeGT gtOut o)) from rfl]
    cases h : readGT gtIn with
    | error e =>
      simp only [isOkE]
      constructor
      · intro hfalse
        exact absurd hfalse (by simp)
      · intro h2
        obtain ⟨g2, hg2⟩ := hiff.mpr h2
        rw [h] at hg2
        exact absurd hg2 (by simp)
    | ok g =>
      have h2 := hiff.mp ⟨g, h⟩
      cases hinv : GDALInvGeoTransformRD g <;>
        · simp [isOkE, h2.1, hinv]
          exact h2.2
  · rw [show applyGeoTransformJS [.arr gtIn, .dbl x, .dbl y] =
        (match readGT gtIn with
         | Except.error e => Except.error e
         | Except.ok g =>
           Except.ok (JSValue.obj (some (.dbl (GDALApplyGeoTransformRD g x y).1))
                                  (some (.dbl (GDALApplyGeoTransformRD g x y).2)))) from rfl]
    cases h : readGT gtIn with
    | error e =>
      simp only [isOkE]
      constructor
      · intro hfalse
        exact absurd hfalse (by simp)
      · intro h2
        obtain ⟨g2, hg2⟩ := hiff.mpr h2
        rw [h] at hg2
        exact absurd hg2 (by simp)
    | ok g =>
      have h2 := hiff.mp ⟨g, h⟩
      simp only [isOkE, true_iff]
      exact ⟨h2.1, h2.2⟩

/-- C9: for every validated six-number input, the binding writes doubles
into indices 0 through 5 of the caller-supplied output array and returns,
even when the transform is singular and the status is 0 (the values are
then whatever the uninitialized local buffer held); the output array
contents beyond index 5 are kept and its prior first six entries and
length are never consulted. -/
theorem invGeoTransform_writes_output :
    ∀ (g scr : GeoTransform RD) (gtOut : List JSValue),
    ∃ w : GeoTransform RD,
      invGeoTransformJS scr [.arr (gtJS g), .arr gtOut] =
        .ok ((if detRD g = RD.fin 0 then 0 else 1),
             [JSValue.dbl w.c0, .dbl w.c1, .dbl w.c2, .dbl w.c3, .dbl w.c4, .dbl w.c5]
               ++ gtOut.drop 6) ∧
      (detRD g = RD.fin 0 → w = scr) := by
  intro g scr gtOut
  refine ⟨(GDALInvGeoTransformRD g).getD scr, ?_, ?_⟩
  · rw [invJS_eval, writeGT_eq]
  · intro hd
    rw [(invRD_none_iff g).mpr hd]
    rfl

/-- Witness for C9 at an all-zero (singular) input transform. -/
theorem invGeoTransform_writes_output_witness :
    ∃ w : GeoTransform RD,
      invGeoTransformJS ⟨.fin 1, .fin 2, .fin 3, .fin 4, .fin 5, .fin 6⟩
          [.arr (gtJS ⟨.fin 0, .fin 0, .fin 0, .fin 0, .fin 0, .fin 0⟩), .arr []] =
        .ok ((if detRD ⟨.fin 0, .fin 0, .fin 0, .fin 0, .fin 0, .fin 0⟩ = RD.fin 0
              then 0 else 1),
             [JSValue.dbl w.c0, .dbl w.c1, .dbl w.c2, .dbl w.c3, .dbl w.c4, .dbl w.c5]
               ++ ([] : List JSValue).drop 6) ∧
      (detRD ⟨.fin 0, .fin 0, .fin 0, .fin 0, .fin 0, .fin 0⟩ = RD.fin 0 →
        w = ⟨.fin 1, .fin 2, .fin 3, .fin 4, .fin 5, .fin 6⟩) :=
  invGeoTransform_writes_output ⟨.fin 0, .fin 0, .fin 0, .fin 0, .fin 0, .fin 0⟩
    ⟨.fin 1, .fin 2, .fin 3, .fin 4, .fin 5, .fin 6⟩ []

/-- C10: setConfigOption stores a string value, unsets on null and on
undefined (which behaves exactly like null), errors on a value of any
other type and on fewer than two arguments; getConfigOption then returns
the stored string, or null when the name is unset. -/
theorem setConfigOption_semantics : ∀ (σ : ConfigStore) (nm v : String),
    (setConfigOptionJS σ [.str nm, .str v]).bind
        (fun σ2 => getConfigOptionJS σ2 [.str nm]) = .ok (.str v) ∧
    (setConfigOptionJS σ [.str nm, .null]).bind
        (fun σ2 => getConfigOptionJS σ2 [.str nm]) = .ok .null ∧
    setConfigOptionJS σ [.str nm, .undef] = setConfigOptionJS σ [.str nm, .null] ∧
    (∀ d : RD, setConfigOptionJS σ [.str nm, .dbl d] =
      .error "value must be a string or null") ∧
    (∀ xs : List JSValue, setConfigOptionJS σ [.str nm, .arr xs] =
      .error "value must be a string or null") ∧
    (∀ ox oy : Option JSValue, setConfigOptionJS σ [.str nm, .obj ox oy] =
      .error "value must be a string or null") ∧
    setConfigOptionJS σ [.str nm] = .error "string or null value must be provided" ∧
    setConfigOptionJS σ ([] : List JSValue) = .error "name must be given" := by
  intro σ nm v
  have hget : ∀ w : Option String,
      getConfigOptionJS (CPLSetConfigOption σ nm w) [.str nm] =
        .ok (match w with | some s => JSValue.str s | none => JSValue.null) := by
    intro w
    have hw : CPLGetConfigOption (CPLSetConfigOption σ nm w) nm = w := by
      unfold CPLGetConfigOption CPLSetConfigOption
      rw [if_pos rfl]
    unfold getConfigOptionJS nodeArgStr
    simp only [List.get?]
    rw [hw]
  refine ⟨?_, ?_, rfl, fun d => rfl, fun xs => rfl, fun ox oy => rfl, rfl, rfl⟩
  · show getConfigOptionJS (CPLSetConfigOption σ nm (some v)) [.str nm] = .ok (.str v)
    exact hget (some v)
  · show getConfigOptionJS (CPLSetConfigOption σ nm none) [.str nm] = .ok .null
    exact hget none
